import Mathlib

/-!
Verification development for the crypto data logger (`src/crypto_logger.py`).

The Python script is linear fetch-then-persist glue code: three metric
fetchers (fear/greed index, spot prices, funding rates), each a fallback
chain over HTTP JSON endpoints, followed by a CSV append and a JSON
snapshot write.  We embed it shallowly:

* JSON values are an inductive `Json`; Python floats are modelled as
  rationals (finite values only; IEEE specials are outside the model).
* One HTTP call is an `Option Response`: `none` models `requests.get`
  raising a transport exception, `some r` a response with a status code
  and an `Option Json` body (`none` body models `.json()` raising).
* A caught Python exception inside an extraction chain is modelled as an
  `Option` that is `none`.
* The CSV file is a header plus rows of raw logical cell strings
  (CSV quoting is file syntax below the model).  The pandas
  `read_csv`/`to_csv` round trip is modelled column-wise: per column,
  `read_csv` infers a dtype — int64 when every cell is an integer
  numeral and none is missing, float64 when every cell is a
  plain-decimal numeral or a default NA token, object otherwise — and
  `to_csv` reprints each cell accordingly: NA tokens (such as `N/A`)
  come back as empty cells, int64 cells as canonical integers
  (`007` → `7`), float64 cells in canonical float form (`25` → `25.0`,
  `60000.50` → `60000.5`), and object cells verbatim.  Model boundary:
  exponent notation, inf/nan words, surrounding whitespace,
  case-variant booleans, integers beyond int64 and decimals beyond 15
  significant digits (where the shortest-round-trip float64 repr can
  differ from the stripped decimal) are outside the model.
-/

set_option autoImplicit false

namespace CryptoLogger

/-- A parsed JSON value.  Numbers are rationals: every numeric value the
APIs return is a finite decimal, and Python float arithmetic on them is
modelled exactly. -/
inductive Json where
  | null
  | bool (b : Bool)
  | num (q : ℚ)
  | str (s : String)
  | arr (items : List Json)
  | obj (fields : List (String × Json))

/-- Key lookup in an association list of JSON object fields
(first binding wins; the script's objects have distinct keys). -/
def lookupField : List (String × Json) → String → Option Json
  | [], _ => none
  | (k, v) :: rest, key => if k = key then some v else lookupField rest key

/-- `d[key]` on a Python dict: `none` models the lookup raising
(`KeyError` on a missing key, `TypeError` on a non-dict). -/
def Json.getField : Json → String → Option Json
  | Json.obj fields, key => lookupField fields key
  | _, _ => none

/-- Whether a JSON value is an object (a Python dict). -/
def Json.isObj : Json → Bool
  | Json.obj _ => true
  | _ => false

/-- One HTTP response: status code plus the result of `.json()`
(`none` when the body does not parse). -/
structure Response where
  status_code : Nat
  body : Option Json

/-- Accumulated decimal value of a digit string. -/
def digsVal (cs : List Char) : Nat :=
  cs.foldl (fun a c => 10 * a + (c.toNat - 48)) 0

/-- Simple decimal payload accepted by Python `float(...)` on a string:
digits, optionally followed by a point and digits.  Exponents,
underscores and the words inf/nan are not modelled; no theorem depends
on string-to-float parsing beyond its totality. -/
def pyFloatCore (cs : List Char) : Option ℚ :=
  let ds := cs.takeWhile Char.isDigit
  let rest := cs.dropWhile Char.isDigit
  match rest with
  | [] => if ds.isEmpty then none else some ((digsVal ds : ℤ) : ℚ)
  | '.' :: fs =>
    if fs.all Char.isDigit && (!ds.isEmpty || !fs.isEmpty) then
      some ((digsVal ds : ℚ) + (digsVal fs : ℚ) / ((10 : ℚ) ^ fs.length))
    else none
  | _ => none

/-- Python `float(...)` on a string, with an optional sign. -/
def pyFloatStr (s : String) : Option ℚ :=
  match s.data with
  | '-' :: cs => (pyFloatCore cs).map (fun q => -q)
  | '+' :: cs => pyFloatCore cs
  | cs => pyFloatCore cs

/-- Python `float(...)` on a JSON value; `none` models the conversion
raising. -/
def pyFloat : Json → Option ℚ
  | Json.num q => some q
  | Json.str s => pyFloatStr s
  | Json.bool b => some (if b then 1 else 0)
  | _ => none

/-! ## Sentiment fetcher (`get_fear_greed_index`, lines 9-17)

The Python function issues one GET, parses the body and returns
`data['data'][0]['value']`; every exception is caught and turned into
the sentinel `'N/A'`.  Note that the status code of the response is
never inspected. -/

/-- Indexing `a[0]` on a parsed JSON value; `none` models the access
raising (also for strings: Python returns a one-character string whose
subsequent `['value']` access raises, so the chain fails either way). -/
def Json.getIdx : Json → Nat → Option Json
  | Json.arr items, i => items.get? i
  | _, _ => none

/-- The extraction chain `response.json()['data'][0]['value']`;
`none` models any step raising. -/
def fngExtract (r : Response) : Option Json :=
  r.body.bind fun d =>
    (d.getField "data").bind fun a =>
      (a.getIdx 0).bind fun e => e.getField "value"

/-- `get_fear_greed_index`: returns the raw index value, or the string
sentinel `'N/A'` when the request or the extraction chain raises.  The
response's status code is not consulted (there is no check in the
source). -/
def get_fear_greed_index (resp : Option Response) : Json :=
  match resp with
  | none => Json.str "N/A"
  | some r =>
    match fngExtract r with
    | some v => v
    | none => Json.str "N/A"

/-! ## Price fetcher (`get_crypto_prices`, lines 19-60)

Primary source: CoinGecko, all-or-nothing.  Fallback: Binance ticker
list, per-symbol tolerant.  The returned pair carries the prices dict
and the number of fallback HTTP calls issued (0 or 1). -/

/-- The three prices; values are raw JSON values (a number on success,
the string `'N/A'` otherwise), exactly like the Python dict. -/
structure Prices where
  bitcoin : Json
  ethereum : Json
  solana : Json

/-- Extraction of the three `data[coin]['usd']` values from the primary
body; `none` models a parse failure or a missing key (an exception,
caught by the surrounding `try`). -/
def priceBody (body : Option Json) : Option Prices :=
  match body with
  | none => none
  | some d =>
    match (d.getField "bitcoin").bind (fun x => x.getField "usd"),
          (d.getField "ethereum").bind (fun x => x.getField "usd"),
          (d.getField "solana").bind (fun x => x.getField "usd") with
    | some b, some e, some s => some ⟨b, e, s⟩
    | _, _, _ => none

/-- Whether `item['symbol']` reads without raising (the item is a dict
with a `'symbol'` key). -/
def symbolReadable (item : Json) : Bool :=
  match item.getField "symbol" with
  | some _ => true
  | none => false

/-- Whether `item['symbol'] == sym` holds: the value must be the string
`sym` (a non-string value compares unequal without raising). -/
def symbolIs (item : Json) (sym : String) : Bool :=
  match item.getField "symbol" with
  | some (Json.str s) => s = sym
  | _ => false

/-- The generator scan `next((item for item in data if item['symbol'] == sym), None)`:
`none` models the scan raising (an item whose `'symbol'` read raises is
reached before any match), `some none` no match, and `some (some it)`
the first matching item. -/
def nextMatch (data : List Json) (sym : String) : Option (Option Json) :=
  match data with
  | [] => some none
  | it :: rest =>
    if symbolReadable it = false then none
    else if symbolIs it sym then some (some it)
    else nextMatch rest sym

/-- Third assignment step of the fallback: populate SOL if its ticker
was found; a failing `float` conversion raises and leaves the dict
as accumulated so far. -/
def assignSol (p : Prices) (sol? : Option Json) : Prices :=
  match sol? with
  | none => p
  | some it =>
    match (it.getField "price").bind pyFloat with
    | none => p
    | some q => { p with solana := Json.num q }

/-- Second assignment step: populate ETH, then SOL; a failing `float`
conversion aborts the remaining assignments. -/
def assignEth (p : Prices) (eth? sol? : Option Json) : Prices :=
  match eth? with
  | none => assignSol p sol?
  | some it =>
    match (it.getField "price").bind pyFloat with
    | none => p
    | some q => assignSol { p with ethereum := Json.num q } sol?

/-- First assignment step: populate BTC, then ETH, then SOL. -/
def assignBtc (p : Prices) (btc? eth? sol? : Option Json) : Prices :=
  match btc? with
  | none => assignEth p eth? sol?
  | some it =>
    match (it.getField "price").bind pyFloat with
    | none => p
    | some q => assignEth { p with bitcoin := Json.num q } eth? sol?

/-- The prices dict as initialised at the top of `get_crypto_prices`. -/
def initPrices : Prices :=
  ⟨Json.str "N/A", Json.str "N/A", Json.str "N/A"⟩

/-- The Binance fallback branch: on a 200 response whose body is a
list, scan for the three symbols (each scan runs before any
assignment), then assign the found prices in order; any exception is
caught and leaves the dict as accumulated so far. -/
def get_crypto_prices_fallback (resp : Option Response) : Prices :=
  match resp with
  | none => initPrices
  | some r =>
    if r.status_code = 200 then
      match r.body with
      | some (Json.arr data) =>
        match nextMatch data "BTCUSDT" with
        | none => initPrices
        | some btc? =>
          match nextMatch data "ETHUSDT" with
          | none => initPrices
          | some eth? =>
            match nextMatch data "SOLUSDT" with
            | none => initPrices
            | some sol? => assignBtc initPrices btc? eth? sol?
      | _ => initPrices
    else initPrices

/-- `get_crypto_prices`: CoinGecko first (all-or-nothing passthrough on
a 200 well-formed response), otherwise the Binance fallback.  The
second component counts fallback HTTP calls. -/
def get_crypto_prices (primary fallback : Option Response) : Prices × Nat :=
  match primary with
  | some r =>
    if r.status_code = 200 then
      match priceBody r.body with
      | some p => (p, 0)
      | none => (get_crypto_prices_fallback fallback, 1)
    else (get_crypto_prices_fallback fallback, 1)
  | none => (get_crypto_prices_fallback fallback, 1)

/-! ## Funding-rate fetcher (`get_funding_rates`, lines 62-125)

Tier 1: CoinGlass, one call per symbol, each failure isolated.
Tier 2: OKX bulk endpoint, attempted only when all three rates are
still `'N/A'`.  Tier 3: replace any remaining `'N/A'` by the terminal
sentinel `'API Blocked'`. -/

/-- Round half to even to the nearest integer, as Python string
formatting does on the (here rational-valued) float. -/
def rhe (x : ℚ) : ℤ :=
  let f := Rat.floor x
  let r := x - (f : ℚ)
  if r < 1 / 2 then f
  else if 1 / 2 < r then f + 1
  else if f % 2 = 0 then f else f + 1

/-- Decimal digits of a natural number, most significant first. -/
def natDigits (n : Nat) : List Char :=
  if n < 10 then [Char.ofNat (48 + n)]
  else natDigits (n / 10) ++ [Char.ofNat (48 + n % 10)]
decreasing_by omega

/-- A four-digit zero-padded rendering of `m % 10000`. -/
def pad4 (m : Nat) : List Char :=
  [Char.ofNat (48 + m / 1000 % 10), Char.ofNat (48 + m / 100 % 10),
   Char.ofNat (48 + m / 10 % 10), Char.ofNat (48 + m % 10)]

/-- Python `f"{x:.4f}"` on a finite value: round the scaled value half
to even, then print sign, integer part, point and exactly four
fractional digits. -/
def pyFormat4Chars (x : ℚ) : List Char :=
  (if x < 0 then ['-'] else [])
    ++ natDigits ((rhe (x * 10000)).natAbs / 10000)
    ++ '.' :: pad4 ((rhe (x * 10000)).natAbs % 10000)

/-- The stored funding-rate string for a raw rate fraction `q`:
`f"{q * 100:.4f}%"` (lines 83-84, 106-113). -/
def fmtRate (q : ℚ) : String :=
  String.mk (pyFormat4Chars (q * 100) ++ ['%'])

/-- The mutable funding-rate dict keyed by asset symbol. -/
structure FundingRates where
  BTC : String
  ETH : String
  SOL : String
deriving DecidableEq

/-- The dict returned at line 125, keyed by exchange pair names. -/
structure FinalRates where
  BTCUSDT : String
  ETHUSDT : String
  SOLUSDT : String
deriving DecidableEq

/-- One CoinGlass per-symbol call (lines 74-84): on a 200 response,
extract `data['data'][0]['rate']` and convert it; any exception is
caught by the per-symbol handler. -/
def tier1Rate (resp : Option Response) : Option ℚ :=
  match resp with
  | none => none
  | some r =>
    if r.status_code = 200 then
      match r.body with
      | none => none
      | some d =>
        match d.getField "data" with
        | some (Json.arr (x :: _)) =>
          match x.getField "rate" with
          | some v => pyFloat v
          | none => none
        | _ => none
    else none

/-- Tier 1: the dict after the three independent CoinGlass calls. -/
def tier1 (b e s : Option Response) : FundingRates where
  BTC := match tier1Rate b with | some q => fmtRate q | none => "N/A"
  ETH := match tier1Rate e with | some q => fmtRate q | none => "N/A"
  SOL := match tier1Rate s with | some q => fmtRate q | none => "N/A"

/-- OKX instrument names mapping to BTC. -/
def btcIds : List String := ["BTC-USD-SWAP", "BTC-USDT-SWAP"]

/-- OKX instrument names mapping to ETH. -/
def ethIds : List String := ["ETH-USD-SWAP", "ETH-USDT-SWAP"]

/-- OKX instrument names mapping to SOL. -/
def solIds : List String := ["SOL-USD-SWAP", "SOL-USDT-SWAP"]

/-- Whether `item.get('instId', '')` yields a string in `ids` (a
missing or non-string instrument id matches nothing). -/
def instIdIs (item : Json) (ids : List String) : Bool :=
  match item.getField "instId" with
  | some (Json.str s) => s ∈ ids
  | _ => false

/-- One iteration of the OKX loop body (lines 103-113): `none` models
the iteration raising (`item.get` on a non-dict, or a failing
`float(item['fundingRate'])` on a matched item), which aborts the loop
and keeps the assignments made so far. -/
def okxStep (fr : FundingRates) (item : Json) : Option FundingRates :=
  if item.isObj = false then none
  else if instIdIs item btcIds then
    ((item.getField "fundingRate").bind pyFloat).map
      (fun q => { fr with BTC := fmtRate q })
  else if instIdIs item ethIds then
    ((item.getField "fundingRate").bind pyFloat).map
      (fun q => { fr with ETH := fmtRate q })
  else if instIdIs item solIds then
    ((item.getField "fundingRate").bind pyFloat).map
      (fun q => { fr with SOL := fmtRate q })
  else some fr

/-- The OKX loop over `data['data']`: entries are traversed in order,
later matches overwrite earlier assignments, and a raising iteration
aborts the loop keeping the assignments already made. -/
def okxLoop : FundingRates → List Json → FundingRates
  | fr, [] => fr
  | fr, item :: rest =>
    match okxStep fr item with
    | none => fr
    | some fr2 => okxLoop fr2 rest

/-- Extraction of the OKX item list (lines 97-102): `none` models a
failed request, a non-200 status, an unparseable body or a missing or
non-list `'data'` entry — all of which leave the dict unchanged. -/
def okxExtract (resp : Option Response) : Option (List Json) :=
  match resp with
  | none => none
  | some r =>
    if r.status_code = 200 then
      match r.body with
      | none => none
      | some d =>
        match d.getField "data" with
        | some (Json.arr items) => some items
        | _ => none
    else none

/-- Tier 2 (lines 94-116): attempted only when all three rates are
still `'N/A'`; the Bool records whether the OKX endpoint was called. -/
def tier2 (fr : FundingRates) (resp : Option Response) : FundingRates × Bool :=
  if fr.BTC = "N/A" ∧ fr.ETH = "N/A" ∧ fr.SOL = "N/A" then
    (match okxExtract resp with
     | some items => okxLoop fr items
     | none => fr, true)
  else (fr, false)

/-- Tier 3 (lines 118-125): re-key the dict and replace any value still
equal to `'N/A'` by the terminal sentinel `'API Blocked'`. -/
def tier3 (fr : FundingRates) : FinalRates where
  BTCUSDT := if fr.BTC ≠ "N/A" then fr.BTC else "API Blocked"
  ETHUSDT := if fr.ETH ≠ "N/A" then fr.ETH else "API Blocked"
  SOLUSDT := if fr.SOL ≠ "N/A" then fr.SOL else "API Blocked"

/-- `get_funding_rates`: the three tiers composed. -/
def get_funding_rates (b e s okx : Option Response) : FinalRates :=
  tier3 (tier2 (tier1 b e s) okx).1

/-! ## The funding-rate string pattern

An executable recogniser for the pattern `-?\d+\.\d{4}%`, anchored at
both ends: an optional minus sign, one or more digits, a point, exactly
four digits, and a percent sign. -/

/-- Recognise `\.\d{4}%` at the end of the character list. -/
def matchTail (cs : List Char) : Bool :=
  match cs with
  | '.' :: d1 :: d2 :: d3 :: d4 :: '%' :: [] =>
    d1.isDigit && d2.isDigit && d3.isDigit && d4.isDigit
  | _ => false

/-- After the first digit: consume further digits, then the tail. -/
def matchNumRest (cs : List Char) : Bool :=
  match cs with
  | [] => false
  | c :: rest => if c.isDigit then matchNumRest rest else matchTail (c :: rest)

/-- Recognise `\d+\.\d{4}%`. -/
def matchNum (cs : List Char) : Bool :=
  match cs with
  | [] => false
  | c :: rest => c.isDigit && matchNumRest rest

/-- Recognise `-?\d+\.\d{4}%`. -/
def matchSigned (cs : List Char) : Bool :=
  match cs with
  | [] => false
  | c :: rest => if c = '-' then matchNum rest else matchNum (c :: rest)

/-- Whether a string matches the anchored pattern `-?\d+\.\d{4}%`. -/
def matchesRatePattern (s : String) : Bool :=
  matchSigned s.data

/-- `Char.ofNat (48 + d)` is a decimal digit character when `d < 10`. -/
theorem digitChar_isDigit (d : Nat) (h : d < 10) :
    (Char.ofNat (48 + d)).isDigit = true := by
  interval_cases d <;> decide

/-- A digit character is not the minus sign. -/
theorem char_isDigit_ne_dash (c : Char) (h : c.isDigit = true) : ¬ c = '-' := by
  intro hc
  subst hc
  exact absurd h (by decide)

/-- `natDigits` always yields a nonempty list of digit characters. -/
theorem natDigits_spec (n : Nat) :
    natDigits n ≠ [] ∧ ∀ c ∈ natDigits n, c.isDigit = true := by
  induction n using Nat.strong_induction_on with
  | _ n ih =>
    by_cases h : n < 10
    · rw [natDigits, if_pos h]
      refine ⟨by simp, ?_⟩
      intro c hc
      simp only [List.mem_singleton] at hc
      subst hc
      exact digitChar_isDigit n h
    · rw [natDigits, if_neg h]
      obtain ⟨-, ih2⟩ := ih (n / 10) (by omega)
      refine ⟨by simp, ?_⟩
      intro c hc
      rw [List.mem_append] at hc
      rcases hc with hc | hc
      · exact ih2 c hc
      · simp only [List.mem_singleton] at hc
        subst hc
        exact digitChar_isDigit _ (Nat.mod_lt _ (by norm_num))

/-- A `pad4` block followed by the percent sign is a valid tail of the
pattern. -/
theorem matchTail_pad4 (m : Nat) : matchTail ('.' :: (pad4 m ++ ['%'])) = true := by
  have h1 := digitChar_isDigit (m / 1000 % 10) (Nat.mod_lt _ (by norm_num))
  have h2 := digitChar_isDigit (m / 100 % 10) (Nat.mod_lt _ (by norm_num))
  have h3 := digitChar_isDigit (m / 10 % 10) (Nat.mod_lt _ (by norm_num))
  have h4 := digitChar_isDigit (m % 10) (Nat.mod_lt _ (by norm_num))
  simp [pad4, matchTail, h1, h2, h3, h4]

/-- Scanning a digit block followed by a valid tail succeeds. -/
theorem matchNumRest_digits (ds : List Char) (tail : List Char)
    (hd : ∀ c ∈ ds, c.isDigit = true) (h : matchTail ('.' :: tail) = true) :
    matchNumRest (ds ++ '.' :: tail) = true := by
  induction ds with
  | nil =>
    have hdot : ('.' : Char).isDigit = false := by decide
    simp [matchNumRest, hdot, h]
  | cons c cs ih =>
    have hc := hd c (by simp)
    have ihh := ih (fun x hx => hd x (by simp [hx]))
    simp [matchNumRest, hc, ihh]

/-- A nonempty digit block followed by a valid tail matches
`\d+\.\d{4}%`. -/
theorem matchNum_digits (ds : List Char) (tail : List Char) (hne : ds ≠ [])
    (hd : ∀ c ∈ ds, c.isDigit = true) (h : matchTail ('.' :: tail) = true) :
    matchNum (ds ++ '.' :: tail) = true := by
  cases ds with
  | nil => exact absurd rfl hne
  | cons c cs =>
    have hc := hd c (by simp)
    have hrest := matchNumRest_digits cs tail (fun x hx => hd x (by simp [hx])) h
    simp [matchNum, hc, hrest]

/-- Every formatted funding-rate string matches `-?\d+\.\d{4}%`. -/
theorem fmtRate_matches (q : ℚ) : matchesRatePattern (fmtRate q) = true := by
  have hds := natDigits_spec ((rhe (q * 100 * 10000)).natAbs / 10000)
  have htail := matchTail_pad4 ((rhe (q * 100 * 10000)).natAbs % 10000)
  show matchSigned (pyFormat4Chars (q * 100) ++ ['%']) = true
  rw [pyFormat4Chars]
  by_cases hneg : q * 100 < 0
  · rw [if_pos hneg]
    have hshape :
        (['-'] ++ natDigits ((rhe (q * 100 * 10000)).natAbs / 10000)
            ++ '.' :: pad4 ((rhe (q * 100 * 10000)).natAbs % 10000)) ++ ['%']
          = '-' :: (natDigits ((rhe (q * 100 * 10000)).natAbs / 10000)
              ++ '.' :: (pad4 ((rhe (q * 100 * 10000)).natAbs % 10000) ++ ['%'])) := by
      simp
    rw [hshape, matchSigned, if_pos rfl]
    exact matchNum_digits _ _ hds.1 hds.2 htail
  · rw [if_neg hneg]
    obtain ⟨c, cs, hcc⟩ :=
      List.exists_cons_of_ne_nil hds.1
    have hc : c.isDigit = true := hds.2 c (by rw [hcc]; simp)
    have hshape :
        ([] ++ natDigits ((rhe (q * 100 * 10000)).natAbs / 10000)
            ++ '.' :: pad4 ((rhe (q * 100 * 10000)).natAbs % 10000)) ++ ['%']
          = c :: (cs ++ '.' :: (pad4 ((rhe (q * 100 * 10000)).natAbs % 10000) ++ ['%'])) := by
      rw [hcc]
      simp
    rw [hshape, matchSigned, if_neg (char_isDigit_ne_dash c hc)]
    have := matchNum_digits (c :: cs) _ (by simp) (by
      intro x hx
      apply hds.2
      rw [hcc]
      exact hx) htail
    simpa using this

/-- A formatted funding-rate string is never the sentinel `'N/A'`. -/
theorem fmtRate_ne_na (q : ℚ) : fmtRate q ≠ "N/A" := by
  intro h
  have := fmtRate_matches q
  rw [h] at this
  exact absurd this (by decide)

/-! ## Record assembly and persistence (`log_crypto_data`, lines 127-196) -/

/-- The `data_row` dict built at lines 158-171, in insertion order. -/
def data_row (date time : String) (fear_greed : Json) (prices : Prices)
    (funding : FinalRates) : List (String × Json) :=
  [("Date", Json.str date),
   ("Time", Json.str time),
   ("Fear_Greed_Index", fear_greed),
   ("BTC_Price", prices.bitcoin),
   ("BTC_Funding_Rate", Json.str funding.BTCUSDT),
   ("BTC_Open_Interest", Json.str "N/A"),
   ("ETH_Price", prices.ethereum),
   ("ETH_Funding_Rate", Json.str funding.ETHUSDT),
   ("ETH_Open_Interest", Json.str "N/A"),
   ("SOL_Price", prices.solana),
   ("SOL_Funding_Rate", Json.str funding.SOLUSDT),
   ("SOL_Open_Interest", Json.str "N/A")]

/-- The twelve column names of the dataset, in order. -/
def dataRowKeys : List String :=
  ["Date", "Time", "Fear_Greed_Index", "BTC_Price", "BTC_Funding_Rate",
   "BTC_Open_Interest", "ETH_Price", "ETH_Funding_Rate", "ETH_Open_Interest",
   "SOL_Price", "SOL_Funding_Rate", "SOL_Open_Interest"]

/-- The default NA tokens of `pandas.read_csv`: a raw cell equal to one
of these parses to NaN. -/
def naTokens : List String :=
  ["", "#N/A", "#N/A N/A", "#NA", "-1.#IND", "-1.#QNAN", "-NaN", "-nan",
   "1.#IND", "1.#QNAN", "<NA>", "N/A", "NA", "NULL", "NaN", "None",
   "n/a", "nan", "null"]

/-- Whether a raw cell is one of the pandas default NA tokens (and so
parses to NaN). -/
def isNaCell (c : String) : Bool := c ∈ naTokens

/-- Split an optional leading sign off a cell; the Bool is whether the
value is negative. -/
def splitSign (cs : List Char) : Bool × List Char :=
  match cs with
  | '-' :: rest => (true, rest)
  | '+' :: rest => (false, rest)
  | _ => (false, cs)

/-- Canonical digit block: leading zeros removed, at least one digit
kept. -/
def stripLead (ds : List Char) : List Char :=
  let t := ds.dropWhile (fun c => c = '0')
  if t.isEmpty then ['0'] else t

/-- Canonical fraction block: trailing zeros removed, at least one
digit kept. -/
def stripTrail (ds : List Char) : List Char :=
  (stripLead ds.reverse).reverse

/-- The integer numerals the model covers: an optional sign and one or
more digits. -/
def intGrammar (c : String) : Bool :=
  let sd := splitSign c.data
  !sd.2.isEmpty && sd.2.all Char.isDigit

/-- The plain-decimal numerals the model covers: an optional sign and
digits, optionally split by one point (no exponent notation). -/
def floatGrammar (c : String) : Bool :=
  let sd := splitSign c.data
  match sd.2.dropWhile Char.isDigit with
  | [] => !sd.2.isEmpty
  | '.' :: fs =>
    fs.all Char.isDigit && (!(sd.2.takeWhile Char.isDigit).isEmpty || !fs.isEmpty)
  | _ => false

/-- The column dtypes `read_csv` infers within the model. -/
inductive Dtype where
  | ints
  | floats
  | object

/-- Column dtype inference of `read_csv`: int64 when every cell is an
integer numeral and none is an NA token; float64 when every cell is a
plain-decimal numeral or an NA token (a missing value forces an
all-integer column to float64); object otherwise. -/
def inferDtype (cells : List String) : Dtype :=
  if cells.all (fun c => !isNaCell c) && cells.all intGrammar then Dtype.ints
  else if cells.all (fun c => isNaCell c || floatGrammar c) then Dtype.floats
  else Dtype.object

/-- Canonical int64 rendering of an integer numeral cell
(`007` → `7`, `-0` → `0`). -/
def renderInt (c : String) : String :=
  let sd := splitSign c.data
  let t := stripLead sd.2
  if t = ['0'] then "0"
  else String.mk ((if sd.1 then ['-'] else []) ++ t)

/-- Canonical float64 rendering of a plain-decimal cell: integer part
with leading zeros stripped, a point, fraction with trailing zeros
stripped, one digit minimum on each side (`25` → `25.0`,
`60000.50` → `60000.5`, `.5` → `0.5`). -/
def renderFloat (c : String) : String :=
  let sd := splitSign c.data
  let ip := sd.2.takeWhile Char.isDigit
  let fs := match sd.2.dropWhile Char.isDigit with
            | '.' :: fs => fs
            | _ => []
  String.mk ((if sd.1 then ['-'] else []) ++ stripLead ip ++ '.' :: stripTrail fs)

/-- One cell of the read-and-rewrite round trip: an NA token parses to
NaN and is written back as the empty cell (the default `na_rep`);
any other cell is reprinted according to its column's dtype. -/
def renderCell (d : Dtype) (c : String) : String :=
  if isNaCell c then ""
  else
    match d with
    | Dtype.ints => renderInt c
    | Dtype.floats => renderFloat c
    | Dtype.object => c

/-- The cells of column `j` of the existing rows. -/
def colCells (rows : List (List String)) (j : Nat) : List String :=
  rows.filterMap (fun r => r.get? j)

/-- The pandas read-and-rewrite of the existing rows: per column,
infer the dtype from the whole column, then reprint every cell. -/
def pandasRewrite (rows : List (List String)) : List (List String) :=
  rows.map (fun r =>
    r.enum.map (fun jc => renderCell (inferDtype (colCells rows jc.1)) jc.2))

/-- A CSV file: header row and data rows of raw cell strings. -/
structure CsvFile where
  header : List String
  rows : List (List String)
deriving DecidableEq

/-- The two output artifacts: `crypto_data.csv` and
`latest_data.json` (the latter stored as the structured record it
serialises). -/
structure FileSystem where
  csv : Option CsvFile
  snapshot : Option (List (String × Json))

/-- Rendering of one record value into a CSV cell.  String values are
written verbatim; rendering of the other shapes is schematic (the
record's non-string values come from JSON responses as numbers, and no
theorem below depends on how a number is printed). -/
def cellOfJson : Json → String
  | Json.str s => s
  | Json.num q => toString q.num ++ (if q.den = 1 then "" else "/" ++ toString q.den)
  | Json.bool b => if b then "True" else "False"
  | Json.null => ""
  | Json.arr _ => ""
  | Json.obj _ => ""

/-- The CSV create-or-append of lines 179-189: an existing file is
read (cells passing through the per-column round trip), the new row is
concatenated last, and the whole file is rewritten; a missing file is
created with the new row under the new header.  Column alignment by
`pd.concat` is modelled for the matching-header case, the one the
theorems below use. -/
def appendCsv (old : Option CsvFile) (keys cells : List String) : CsvFile :=
  match old with
  | some f => ⟨f.header, pandasRewrite f.rows ++ [cells]⟩
  | none => ⟨keys, [cells]⟩

/-- The record a run with the given fetch outcomes assembles. -/
def runRow (date time : String) (fng primary fallback fb fe fs okx : Option Response) :
    List (String × Json) :=
  data_row date time (get_fear_greed_index fng)
    (get_crypto_prices primary fallback).1
    (get_funding_rates fb fe fs okx)

/-- `log_crypto_data`: assemble the record, create-or-append the CSV
dataset, and unconditionally overwrite the JSON snapshot with the
record.  Returns the record and the resulting file state. -/
def log_crypto_data (date time : String)
    (fng primary fallback fb fe fs okx : Option Response)
    (fsys : FileSystem) : List (String × Json) × FileSystem :=
  let row := runRow date time fng primary fallback fb fe fs okx
  (row,
   { csv := some (appendCsv fsys.csv (row.map Prod.fst)
       (row.map (fun kv => cellOfJson kv.2))),
     snapshot := some row })

/-! ## Claims about the sentiment fetcher -/

/-- C2, as stated, is false: `get_fear_greed_index` never inspects the
status code, so a non-success response (here 500) whose body still
parses to a value is returned raw instead of the sentinel `'N/A'`. -/
theorem C2_counterexample :
    get_fear_greed_index (some ⟨500,
        some (Json.obj [("data", Json.arr [Json.obj [("value", Json.str "42")]])])⟩)
      = Json.str "42"
    ∧ Json.str "42" ≠ Json.str "N/A"
    ∧ (500 : Nat) ≠ 200 :=
  ⟨rfl, fun hh => absurd (Json.str.inj hh) (by decide), by decide⟩

/-- C2 (amended): on a transport error or any failure of the extraction
chain (parse error or missing field) the fetcher returns the sentinel
`'N/A'`; when the extraction chain succeeds it returns the raw value
with no range validation, regardless of the HTTP status code, which is
never inspected. -/
theorem C2_theorem (resp : Option Response) :
    (resp = none → get_fear_greed_index resp = Json.str "N/A") ∧
    (∀ r, resp = some r → fngExtract r = none →
        get_fear_greed_index resp = Json.str "N/A") ∧
    (∀ r v, resp = some r → fngExtract r = some v →
        get_fear_greed_index resp = v) ∧
    (∀ r n, get_fear_greed_index (some { r with status_code := n })
        = get_fear_greed_index (some r)) := by
  refine ⟨?_, ?_, ?_, ?_⟩
  · rintro rfl; rfl
  · rintro r rfl h; simp [get_fear_greed_index, h]
  · rintro r v rfl h; simp [get_fear_greed_index, h]
  · intro r n; rfl

/-- C2 witness: a successful extraction returns the raw value. -/
theorem C2_witness :
    get_fear_greed_index (some ⟨200,
        some (Json.obj [("data", Json.arr [Json.obj [("value", Json.str "30")]])])⟩)
      = Json.str "30" :=
  (C2_theorem _).2.2.1 _ _ rfl rfl

/-! ## Claims about the price fetcher -/

/-- C4: on a 200 primary response with a well-formed body the three
prices are the exact raw values of that response and no fallback call
is made; on a raised primary request, a non-200 status, or a body the
extraction raises on, the fallback endpoint is called exactly once. -/
theorem C4_theorem (primary fallback : Option Response) :
    (∀ r p, primary = some r → r.status_code = 200 → priceBody r.body = some p →
        get_crypto_prices primary fallback = (p, 0)) ∧
    (primary = none → (get_crypto_prices primary fallback).2 = 1) ∧
    (∀ r, primary = some r → r.status_code ≠ 200 →
        (get_crypto_prices primary fallback).2 = 1) ∧
    (∀ r, primary = some r → priceBody r.body = none →
        (get_crypto_prices primary fallback).2 = 1) := by
  refine ⟨?_, ?_, ?_, ?_⟩
  · rintro r p rfl h200 hb; simp [get_crypto_prices, h200, hb]
  · rintro rfl; rfl
  · rintro r rfl hne; simp [get_crypto_prices, hne]
  · rintro r rfl hb
    by_cases h200 : r.status_code = 200
    · simp [get_crypto_prices, h200, hb]
    · simp [get_crypto_prices, h200]

/-- C4 witness: the spec's passthrough scenario, with zero fallback
calls. -/
theorem C4_witness :
    get_crypto_prices (some ⟨200,
        some (Json.obj
          [("bitcoin", Json.obj [("usd", Json.num 65000)]),
           ("ethereum", Json.obj [("usd", Json.num 3500)]),
           ("solana", Json.obj [("usd", Json.num 150)])])⟩) none
      = (⟨Json.num 65000, Json.num 3500, Json.num 150⟩, 0) :=
  (C4_theorem _ _).1 _ _ rfl rfl rfl

/-! ## Claims about the funding-rate fetcher -/

/-- C6: when all three tier-1 calls fail and the tier-2 bulk call
fails, every funding-rate field of the returned dict is the terminal
sentinel `'API Blocked'`, which differs from `'N/A'`. -/
theorem C6_theorem (b e s okx : Option Response)
    (h1 : tier1Rate b = none) (h2 : tier1Rate e = none) (h3 : tier1Rate s = none)
    (h4 : okxExtract okx = none) :
    get_funding_rates b e s okx = ⟨"API Blocked", "API Blocked", "API Blocked"⟩
    ∧ (get_funding_rates b e s okx).BTCUSDT ≠ "N/A" := by
  have ht : tier1 b e s = ⟨"N/A", "N/A", "N/A"⟩ := by
    simp [tier1, h1, h2, h3]
  have hmain : get_funding_rates b e s okx
      = ⟨"API Blocked", "API Blocked", "API Blocked"⟩ := by
    simp [get_funding_rates, ht, tier2, h4, tier3]
  exact ⟨hmain, by rw [hmain]; decide⟩

/-- C6 witness: the all-sources-fail run. -/
theorem C6_witness :
    get_funding_rates none none none none
      = ⟨"API Blocked", "API Blocked", "API Blocked"⟩ :=
  (C6_theorem none none none none rfl rfl rfl rfl).1

/-! ## Claims about the assembled record -/

/-- C9: whatever the fetch outcomes, the assembled record has exactly
the twelve fixed keys in order, every key is present (so a failed
source shows as a sentinel value, never a missing key), and the three
open-interest fields always hold the sentinel `'N/A'`. -/
theorem C9_theorem (date time : String)
    (fng primary fallback fb fe fs okx : Option Response) :
    (runRow date time fng primary fallback fb fe fs okx).map Prod.fst = dataRowKeys
    ∧ lookupField (runRow date time fng primary fallback fb fe fs okx)
        "BTC_Open_Interest" = some (Json.str "N/A")
    ∧ lookupField (runRow date time fng primary fallback fb fe fs okx)
        "ETH_Open_Interest" = some (Json.str "N/A")
    ∧ lookupField (runRow date time fng primary fallback fb fe fs okx)
        "SOL_Open_Interest" = some (Json.str "N/A")
    ∧ ∀ k, k ∈ dataRowKeys →
        (lookupField (runRow date time fng primary fallback fb fe fs okx) k).isSome
          = true := by
  refine ⟨rfl, rfl, rfl, rfl, ?_⟩
  intro k hk
  fin_cases hk <;> rfl

/-- C9 witness: the date key is present on a run whose fetches all
fail. -/
theorem C9_witness :
    (lookupField (runRow "2024-01-02" "12:00:00" none none none none none none none)
        "Date").isSome = true :=
  ( C9_theorem "2024-01-02" "12:00:00" none none none none none none none).2.2.2.2
    "Date" (by decide)

/-- C5: the tier-2 bulk endpoint is attempted exactly when all three
rates are still `'N/A'` after tier 1 (so a tier-1 resolution is never
touched by tier 2), and tier 3 replaces exactly the values still equal
to `'N/A'` (so a resolution from tier 1 or 2 is never overwritten by a
later tier). -/
theorem C5_theorem (b e s okx : Option Response) :
    (¬ ((tier1 b e s).BTC = "N/A" ∧ (tier1 b e s).ETH = "N/A"
          ∧ (tier1 b e s).SOL = "N/A") →
        tier2 (tier1 b e s) okx = (tier1 b e s, false)) ∧
    (((tier1 b e s).BTC = "N/A" ∧ (tier1 b e s).ETH = "N/A"
          ∧ (tier1 b e s).SOL = "N/A") →
        (tier2 (tier1 b e s) okx).2 = true) ∧
    ((tier1 b e s).BTC ≠ "N/A" →
        (get_funding_rates b e s okx).BTCUSDT = (tier1 b e s).BTC) ∧
    ((tier1 b e s).ETH ≠ "N/A" →
        (get_funding_rates b e s okx).ETHUSDT = (tier1 b e s).ETH) ∧
    ((tier1 b e s).SOL ≠ "N/A" →
        (get_funding_rates b e s okx).SOLUSDT = (tier1 b e s).SOL) ∧
    ((tier2 (tier1 b e s) okx).1.BTC ≠ "N/A" →
        (get_funding_rates b e s okx).BTCUSDT = (tier2 (tier1 b e s) okx).1.BTC) ∧
    ((tier2 (tier1 b e s) okx).1.BTC = "N/A" →
        (get_funding_rates b e s okx).BTCUSDT = "API Blocked") ∧
    ((tier2 (tier1 b e s) okx).1.ETH ≠ "N/A" →
        (get_funding_rates b e s okx).ETHUSDT = (tier2 (tier1 b e s) okx).1.ETH) ∧
    ((tier2 (tier1 b e s) okx).1.ETH = "N/A" →
        (get_funding_rates b e s okx).ETHUSDT = "API Blocked") ∧
    ((tier2 (tier1 b e s) okx).1.SOL ≠ "N/A" →
        (get_funding_rates b e s okx).SOLUSDT = (tier2 (tier1 b e s) okx).1.SOL) ∧
    ((tier2 (tier1 b e s) okx).1.SOL = "N/A" →
        (get_funding_rates b e s okx).SOLUSDT = "API Blocked") := by
  have hguard : ∀ hne : ¬ ((tier1 b e s).BTC = "N/A" ∧ (tier1 b e s).ETH = "N/A"
      ∧ (tier1 b e s).SOL = "N/A"), tier2 (tier1 b e s) okx = (tier1 b e s, false) := by
    intro hne
    unfold tier2
    rw [if_neg hne]
  refine ⟨hguard, ?_, ?_, ?_, ?_, ?_, ?_, ?_, ?_, ?_, ?_⟩
  · intro hall
    unfold tier2
    rw [if_pos hall]
  · intro h
    rw [get_funding_rates, hguard (fun hall => h hall.1)]
    simp [tier3, h]
  · intro h
    rw [get_funding_rates, hguard (fun hall => h hall.2.1)]
    simp [tier3, h]
  · intro h
    rw [get_funding_rates, hguard (fun hall => h hall.2.2)]
    simp [tier3, h]
  · intro h; rw [get_funding_rates]; simp [tier3, h]
  · intro h; rw [get_funding_rates]; simp [tier3, h]
  · intro h; rw [get_funding_rates]; simp [tier3, h]
  · intro h; rw [get_funding_rates]; simp [tier3, h]
  · intro h; rw [get_funding_rates]; simp [tier3, h]
  · intro h; rw [get_funding_rates]; simp [tier3, h]

/-- C5 witness: a rate resolved by tier 1 survives to the returned
dict when the later tiers have nothing. -/
theorem C5_witness :
    (get_funding_rates
        (some ⟨200, some (Json.obj
          [("data", Json.arr [Json.obj [("rate", Json.num (1 / 10000))]])])⟩)
        none none none).BTCUSDT
      = (tier1
        (some ⟨200, some (Json.obj
          [("data", Json.arr [Json.obj [("rate", Json.num (1 / 10000))]])])⟩)
        none none).BTC :=
  (C5_theorem _ none none none).2.2.1 (by
    have h1 : (tier1
        (some ⟨200, some (Json.obj
          [("data", Json.arr [Json.obj [("rate", Json.num (1 / 10000))]])])⟩)
        none none).BTC = fmtRate (1 / 10000) := rfl
    rw [h1]
    exact fmtRate_ne_na _)

/-! ## Claims about persistence -/

/-- C1, as stated, is false: the pandas read-and-rewrite does not keep
prior cells byte-identical.  Over this two-record dataset (the second
run of which had failed fetches) the record count goes from 2 to 3 and
the new record is appended last, but the prior records change: every
`'N/A'` cell (a default `read_csv` NA token) parses to NaN and comes
back as an empty cell, and the missing values force the numeric
columns to float64, so the integer-looking cells `'25'` and `'61000'`
are reprinted as `'25.0'` and `'61000.0'`. -/
theorem C1_counterexample :
    ((log_crypto_data "2024-01-02" "19:00:00" none none none none none none none
        ⟨some ⟨dataRowKeys,
          [["2024-01-01", "03:00:00", "25", "60000.5", "0.0100%", "N/A",
            "3500.0", "0.0200%", "N/A", "3000.25", "-0.0050%", "N/A"],
           ["2024-01-01", "11:00:00", "N/A", "61000", "N/A", "N/A",
            "N/A", "API Blocked", "N/A", "N/A", "API Blocked", "N/A"]]⟩,
         none⟩).2.csv
      = some ⟨dataRowKeys,
          [["2024-01-01", "03:00:00", "25.0", "60000.5", "0.0100%", "",
            "3500.0", "0.0200%", "", "3000.25", "-0.0050%", ""],
           ["2024-01-01", "11:00:00", "", "61000.0", "", "",
            "", "API Blocked", "", "", "API Blocked", ""],
           ["2024-01-02", "19:00:00", "N/A", "N/A", "API Blocked", "N/A",
            "N/A", "API Blocked", "N/A", "N/A", "API Blocked", "N/A"]]⟩)
    ∧ ["2024-01-01", "03:00:00", "25.0", "60000.5", "0.0100%", "",
       "3500.0", "0.0200%", "", "3000.25", "-0.0050%", ""]
      ≠ ["2024-01-01", "03:00:00", "25", "60000.5", "0.0100%", "N/A",
         "3500.0", "0.0200%", "N/A", "3000.25", "-0.0050%", "N/A"]
    ∧ ("25.0" : String) ≠ "25" :=
  ⟨rfl, by decide, by decide⟩

/-- C1 (amended): one invocation over an existing dataset of N records
rewrites the file with the header kept, the N prior rows passed
through the pandas per-column round trip, and the new record appended
as the last row — so exactly N+1 records result; prior records survive
as rows but not byte-identically: a prior cell equal to a pandas
default NA token (such as the sentinel `'N/A'`) is rewritten as an
empty cell whatever its column's dtype, cells of int64 columns are
reprinted as canonical integers, cells of float64 columns (columns
with decimal points or missing values) are reprinted in canonical
float form (`'25'` becomes `'25.0'`), and only cells of non-numeric
(object) columns are kept verbatim. -/
theorem C1_theorem (date time : String)
    (fng primary fallback fb fe fs okx : Option Response)
    (fsys : FileSystem) (f : CsvFile) (h : fsys.csv = some f) :
    ((log_crypto_data date time fng primary fallback fb fe fs okx fsys).2.csv
      = some ⟨f.header,
          pandasRewrite f.rows
            ++ [(runRow date time fng primary fallback fb fe fs okx).map
                  (fun kv => cellOfJson kv.2)]⟩)
    ∧ (pandasRewrite f.rows
        ++ [(runRow date time fng primary fallback fb fe fs okx).map
              (fun kv => cellOfJson kv.2)]).length = f.rows.length + 1
    ∧ (∀ d : Dtype, ∀ c : String, c ∈ naTokens → renderCell d c = "")
    ∧ (∀ c : String, c ∉ naTokens → renderCell Dtype.object c = c) := by
  refine ⟨?_, ?_, ?_, ?_⟩
  · simp [log_crypto_data, appendCsv, h]
  · simp [pandasRewrite]
  · intro d c hc
    simp [renderCell, isNaCell, hc]
  · intro c hc
    simp [renderCell, isNaCell, hc]

/-- C1 witness: the amended description of the rewrite, on a concrete
one-record dataset. -/
theorem C1_witness :
    (log_crypto_data "2024-01-03" "01:00:00" none none none none none none none
        ⟨some ⟨["A", "B"], [["x", "N/A"]]⟩, none⟩).2.csv
      = some ⟨["A", "B"],
          pandasRewrite [["x", "N/A"]]
            ++ [(runRow "2024-01-03" "01:00:00" none none none none none none none).map
                  (fun kv => cellOfJson kv.2)]⟩ :=
  ( C1_theorem "2024-01-03" "01:00:00" none none none none none none none
    ⟨some ⟨["A", "B"], [["x", "N/A"]]⟩, none⟩ ⟨["A", "B"], [["x", "N/A"]]⟩ rfl).1

/-- C3: every run (the model's runs all complete; a run aborted by an
unreadable dataset file is outside the claim's scope) overwrites the
snapshot file with exactly the run's record, whatever snapshot and
dataset content the file system held before — the right-hand side does
not depend on the prior file state at all. -/
theorem C3_theorem (date time : String)
    (fng primary fallback fb fe fs okx : Option Response) (fsys : FileSystem) :
    (log_crypto_data date time fng primary fallback fb fe fs okx fsys).2.snapshot
      = some (runRow date time fng primary fallback fb fe fs okx) := rfl

/-! ## The fallback-price scan (claim C8) -/

/-- A well-formed ticker entry: its `'symbol'` read does not raise and
its `'price'` value converts with `float`. -/
def wfTicker (item : Json) : Bool :=
  symbolReadable item && ((item.getField "price").bind pyFloat).isSome

/-- Under readable symbols the scan never raises. -/
theorem nextMatch_total (data : List Json) (sym : String)
    (hread : ∀ it ∈ data, symbolReadable it = true) :
    ∃ o, nextMatch data sym = some o := by
  induction data with
  | nil => exact ⟨none, rfl⟩
  | cons x rest ih =>
    have hx := hread x (by simp)
    by_cases hs : symbolIs x sym = true
    · exact ⟨some x, by simp [nextMatch, hx, hs]⟩
    · obtain ⟨o, ho⟩ := ih (fun it h => hread it (by simp [h]))
      exact ⟨o, by simp [nextMatch, hx, hs, ho]⟩

/-- Under readable symbols, a symbol matched by no entry yields an
empty scan result. -/
theorem nextMatch_none (data : List Json) (sym : String)
    (hread : ∀ it ∈ data, symbolReadable it = true)
    (habs : ∀ it ∈ data, symbolIs it sym = false) :
    nextMatch data sym = some none := by
  induction data with
  | nil => rfl
  | cons x rest ih =>
    have hx := hread x (by simp)
    have ha := habs x (by simp)
    have ihh := ih (fun it h => hread it (by simp [h])) (fun it h => habs it (by simp [h]))
    simp [nextMatch, hx, ha, ihh]

/-- A found entry is an element of the scanned list. -/
theorem nextMatch_found (data : List Json) (sym : String) (it : Json)
    (h : nextMatch data sym = some (some it)) : it ∈ data := by
  induction data with
  | nil => simp [nextMatch] at h
  | cons x rest ih =>
    by_cases hr : symbolReadable x = false
    · rw [nextMatch, if_pos hr] at h; cases h
    · rw [nextMatch, if_neg hr] at h
      by_cases hs : symbolIs x sym = true
      · rw [if_pos hs] at h
        have hx : x = it := by
          injection h with h1
          injection h1
        exact hx ▸ List.mem_cons_self _ _
      · rw [if_neg hs] at h
        exact List.mem_cons_of_mem _ (ih h)

/-- The SOL assignment never touches the BTC price. -/
theorem assignSol_bitcoin (p : Prices) (sol? : Option Json) :
    (assignSol p sol?).bitcoin = p.bitcoin := by
  rcases sol? with - | it
  · rfl
  · rcases h : (it.getField "price").bind pyFloat with - | q <;> simp [assignSol, h]

/-- The SOL assignment never touches the ETH price. -/
theorem assignSol_ethereum (p : Prices) (sol? : Option Json) :
    (assignSol p sol?).ethereum = p.ethereum := by
  rcases sol? with - | it
  · rfl
  · rcases h : (it.getField "price").bind pyFloat with - | q <;> simp [assignSol, h]

/-- The ETH and SOL assignments never touch the BTC price. -/
theorem assignEth_bitcoin (p : Prices) (eth? sol? : Option Json) :
    (assignEth p eth? sol?).bitcoin = p.bitcoin := by
  rcases eth? with - | it
  · simp [assignEth, assignSol_bitcoin]
  · rcases h : (it.getField "price").bind pyFloat with - | q <;>
      simp [assignEth, h, assignSol_bitcoin]

/-- With no ETH ticker found, the ETH price passes through. -/
theorem assignEth_ethereum_none (p : Prices) (sol? : Option Json) :
    (assignEth p none sol?).ethereum = p.ethereum := by
  simp [assignEth, assignSol_ethereum]

/-- A found ETH ticker with a converting price sets the ETH price. -/
theorem assignEth_ethereum_set (p : Prices) (it : Json) (q : ℚ) (sol? : Option Json)
    (hq : (it.getField "price").bind pyFloat = some q) :
    (assignEth p (some it) sol?).ethereum = Json.num q := by
  simp [assignEth, hq, assignSol_ethereum]

/-- When the ETH stage passes (no ticker, or a converting price) and no
SOL ticker was found, the SOL price passes through. -/
theorem assignEth_solana_none (p : Prices) (eth? : Option Json)
    (hpass : eth? = none ∨ ∃ it q, eth? = some it ∧ (it.getField "price").bind pyFloat = some q) :
    (assignEth p eth? none).solana = p.solana := by
  rcases hpass with rfl | ⟨it, q, rfl, hq⟩
  · simp [assignEth, assignSol]
  · simp [assignEth, hq, assignSol]

/-- When the ETH stage passes, a found SOL ticker with a converting
price sets the SOL price. -/
theorem assignEth_solana_set (p : Prices) (eth? : Option Json) (its : Json) (qs : ℚ)
    (hpass : eth? = none ∨ ∃ it q, eth? = some it ∧ (it.getField "price").bind pyFloat = some q)
    (hs : (its.getField "price").bind pyFloat = some qs) :
    (assignEth p eth? (some its)).solana = Json.num qs := by
  rcases hpass with rfl | ⟨it, q, rfl, hq⟩
  · simp [assignEth, assignSol, hs]
  · simp [assignEth, hq, assignSol, hs]

/-- With no BTC ticker found, the BTC price passes through. -/
theorem assignBtc_bitcoin_none (p : Prices) (eth? sol? : Option Json) :
    (assignBtc p none eth? sol?).bitcoin = p.bitcoin := by
  simp [assignBtc, assignEth_bitcoin]

/-- A found BTC ticker with a converting price sets the BTC price. -/
theorem assignBtc_bitcoin_set (p : Prices) (it : Json) (q : ℚ) (eth? sol? : Option Json)
    (hq : (it.getField "price").bind pyFloat = some q) :
    (assignBtc p (some it) eth? sol?).bitcoin = Json.num q := by
  simp [assignBtc, hq, assignEth_bitcoin]

/-- When the BTC stage passes, the ETH price is governed by the ETH
stage alone. -/
theorem assignBtc_ethereum (p : Prices) (btc? eth? sol? : Option Json)
    (hpass : btc? = none ∨ ∃ it q, btc? = some it ∧ (it.getField "price").bind pyFloat = some q) :
    (assignBtc p btc? eth? sol?).ethereum = (assignEth p eth? sol?).ethereum := by
  rcases hpass with rfl | ⟨it, q, rfl, hq⟩
  · rfl
  · rcases eth? with - | ite
    · simp [assignBtc, hq, assignEth, assignSol_ethereum]
    · rcases h2 : (ite.getField "price").bind pyFloat with - | q2 <;>
        simp [assignBtc, hq, assignEth, h2, assignSol_ethereum]

/-- When the BTC stage passes, the SOL price is governed by the later
stages alone. -/
theorem assignBtc_solana (p : Prices) (btc? eth? sol? : Option Json)
    (hpass : btc? = none ∨ ∃ it q, btc? = some it ∧ (it.getField "price").bind pyFloat = some q) :
    (assignBtc p btc? eth? sol?).solana = (assignEth p eth? sol?).solana := by
  rcases hpass with rfl | ⟨it, q, rfl, hq⟩
  · rfl
  · rcases eth? with - | ite
    · rcases sol? with - | its
      · simp [assignBtc, hq, assignEth, assignSol]
      · rcases h3 : (its.getField "price").bind pyFloat with - | q3 <;>
          simp [assignBtc, hq, assignEth, assignSol, h3]
    · rcases h2 : (ite.getField "price").bind pyFloat with - | q2
      · simp [assignBtc, hq, assignEth, h2]
      · rcases sol? with - | its
        · simp [assignBtc, hq, assignEth, h2, assignSol]
        · rcases h3 : (its.getField "price").bind pyFloat with - | q3 <;>
            simp [assignBtc, hq, assignEth, h2, assignSol, h3]

/-- C8: in the fallback path, over a well-formed ticker list, exactly
the assets whose symbol occurs get their price populated (the found
entry's price, float-converted) and an asset whose symbol is absent
keeps the sentinel `'N/A'`; the conclusions for the three assets are
independent, so one symbol's absence never blocks the others. -/
theorem C8_theorem (data : List Json)
    (hwf : ∀ it ∈ data, wfTicker it = true) :
    ((∀ it ∈ data, symbolIs it "BTCUSDT" = false) →
        (get_crypto_prices_fallback (some ⟨200, some (Json.arr data)⟩)).bitcoin
          = Json.str "N/A") ∧
    (∀ it q, nextMatch data "BTCUSDT" = some (some it) →
        (it.getField "price").bind pyFloat = some q →
        (get_crypto_prices_fallback (some ⟨200, some (Json.arr data)⟩)).bitcoin
          = Json.num q) ∧
    ((∀ it ∈ data, symbolIs it "ETHUSDT" = false) →
        (get_crypto_prices_fallback (some ⟨200, some (Json.arr data)⟩)).ethereum
          = Json.str "N/A") ∧
    (∀ it q, nextMatch data "ETHUSDT" = some (some it) →
        (it.getField "price").bind pyFloat = some q →
        (get_crypto_prices_fallback (some ⟨200, some (Json.arr data)⟩)).ethereum
          = Json.num q) ∧
    ((∀ it ∈ data, symbolIs it "SOLUSDT" = false) →
        (get_crypto_prices_fallback (some ⟨200, some (Json.arr data)⟩)).solana
          = Json.str "N/A") ∧
    (∀ it q, nextMatch data "SOLUSDT" = some (some it) →
        (it.getField "price").bind pyFloat = some q →
        (get_crypto_prices_fallback (some ⟨200, some (Json.arr data)⟩)).solana
          = Json.num q) := by
  have hread : ∀ it ∈ data, symbolReadable it = true := by
    intro it h
    have hh := hwf it h
    rw [wfTicker, Bool.and_eq_true] at hh
    exact hh.1
  have hprice : ∀ it ∈ data, ∃ q, (it.getField "price").bind pyFloat = some q := by
    intro it h
    have hh := hwf it h
    rw [wfTicker, Bool.and_eq_true] at hh
    rcases hq : (it.getField "price").bind pyFloat with - | q
    · rw [hq] at hh
      simp at hh
    · exact ⟨q, rfl⟩
  obtain ⟨btc?, hbtc⟩ := nextMatch_total data "BTCUSDT" hread
  obtain ⟨eth?, heth⟩ := nextMatch_total data "ETHUSDT" hread
  obtain ⟨sol?, hsol⟩ := nextMatch_total data "SOLUSDT" hread
  have hres : get_crypto_prices_fallback (some ⟨200, some (Json.arr data)⟩)
      = assignBtc initPrices btc? eth? sol? := by
    simp [get_crypto_prices_fallback, hbtc, heth, hsol]
  have hpassb : btc? = none
      ∨ ∃ it q, btc? = some it ∧ (it.getField "price").bind pyFloat = some q := by
    rcases btc? with - | itb
    · exact Or.inl rfl
    · obtain ⟨qb, hqb⟩ := hprice itb (nextMatch_found data "BTCUSDT" itb hbtc)
      exact Or.inr ⟨itb, qb, rfl, hqb⟩
  have hpasse : eth? = none
      ∨ ∃ it q, eth? = some it ∧ (it.getField "price").bind pyFloat = some q := by
    rcases eth? with - | ite
    · exact Or.inl rfl
    · obtain ⟨qe, hqe⟩ := hprice ite (nextMatch_found data "ETHUSDT" ite heth)
      exact Or.inr ⟨ite, qe, rfl, hqe⟩
  refine ⟨?_, ?_, ?_, ?_, ?_, ?_⟩
  · intro habs
    have hb0 : btc? = none := by
      have hh := (nextMatch_none data "BTCUSDT" hread habs).symm.trans hbtc
      injection hh with h1
      exact h1.symm
    rw [hres, hb0, assignBtc_bitcoin_none]
    rfl
  · intro it q hf hq
    have hbs : btc? = some it := by
      have hh := hbtc.symm.trans hf
      injection hh
    rw [hres, hbs]
    exact assignBtc_bitcoin_set _ _ _ _ _ hq
  · intro habs
    have he0 : eth? = none := by
      have hh := (nextMatch_none data "ETHUSDT" hread habs).symm.trans heth
      injection hh with h1
      exact h1.symm
    rw [hres, assignBtc_ethereum _ _ _ _ hpassb, he0, assignEth_ethereum_none]
    rfl
  · intro it q hf hq
    have hes : eth? = some it := by
      have hh := heth.symm.trans hf
      injection hh
    rw [hres, assignBtc_ethereum _ _ _ _ hpassb, hes]
    exact assignEth_ethereum_set _ _ _ _ hq
  · intro habs
    have hs0 : sol? = none := by
      have hh := (nextMatch_none data "SOLUSDT" hread habs).symm.trans hsol
      injection hh with h1
      exact h1.symm
    rw [hres, assignBtc_solana _ _ _ _ hpassb, hs0, assignEth_solana_none _ _ hpasse]
    rfl
  · intro it q hf hq
    have hss : sol? = some it := by
      have hh := hsol.symm.trans hf
      injection hh
    rw [hres, assignBtc_solana _ _ _ _ hpassb, hss]
    exact assignEth_solana_set _ _ _ _ hpasse hq

/-- C8 witness: the spec's scenario — fallback data holds BTCUSDT and
ETHUSDT only, so BTC and ETH populate and SOL stays `'N/A'`. -/
theorem C8_witness :
    (get_crypto_prices_fallback (some ⟨200, some (Json.arr
        [Json.obj [("symbol", Json.str "BTCUSDT"), ("price", Json.num 65000)],
         Json.obj [("symbol", Json.str "ETHUSDT"), ("price", Json.num 3500)]])⟩)).bitcoin
      = Json.num 65000
    ∧ (get_crypto_prices_fallback (some ⟨200, some (Json.arr
        [Json.obj [("symbol", Json.str "BTCUSDT"), ("price", Json.num 65000)],
         Json.obj [("symbol", Json.str "ETHUSDT"), ("price", Json.num 3500)]])⟩)).ethereum
      = Json.num 3500
    ∧ (get_crypto_prices_fallback (some ⟨200, some (Json.arr
        [Json.obj [("symbol", Json.str "BTCUSDT"), ("price", Json.num 65000)],
         Json.obj [("symbol", Json.str "ETHUSDT"), ("price", Json.num 3500)]])⟩)).solana
      = Json.str "N/A" :=
  ⟨(C8_theorem _ (by decide)).2.1 _ _ rfl rfl,
   (C8_theorem _ (by decide)).2.2.2.1 _ _ rfl rfl,
   (C8_theorem _ (by decide)).2.2.2.2.1 (by decide)⟩

/-! ## The OKX loop traversal order (claim C10) -/

/-- Whether one OKX loop iteration over this item would raise: the
item is not a dict, or it matches some asset but its
`float(item['fundingRate'])` conversion fails. -/
def okxRaises (item : Json) : Bool :=
  if item.isObj = false then true
  else if instIdIs item btcIds || instIdIs item ethIds || instIdIs item solIds then
    ((item.getField "fundingRate").bind pyFloat).isNone
  else false

/-- The last entry of the list selected by `sel`, if any. -/
def lastMatch (sel : Json → Bool) : List Json → Option Json
  | [] => none
  | it :: rest =>
    match lastMatch sel rest with
    | some r => some r
    | none => if sel it then some it else none

/-- A single instrument id matches at most one asset's variants. -/
theorem instId_not_both (item : Json) :
    (instIdIs item btcIds = true → instIdIs item ethIds = false) ∧
    (instIdIs item btcIds = true → instIdIs item solIds = false) ∧
    (instIdIs item ethIds = true → instIdIs item solIds = false) := by
  rcases hg : item.getField "instId" with - | v
  · simp [instIdIs, hg]
  · cases v with
    | null => simp [instIdIs, hg]
    | bool b => simp [instIdIs, hg]
    | num q => simp [instIdIs, hg]
    | arr l => simp [instIdIs, hg]
    | obj l => simp [instIdIs, hg]
    | str s =>
      refine ⟨?_, ?_, ?_⟩ <;> intro h
      · have hs : s = "BTC-USD-SWAP" ∨ s = "BTC-USDT-SWAP" := by
          simpa [instIdIs, hg, btcIds] using h
        rcases hs with rfl | rfl <;> simp [instIdIs, hg, ethIds]
      · have hs : s = "BTC-USD-SWAP" ∨ s = "BTC-USDT-SWAP" := by
          simpa [instIdIs, hg, btcIds] using h
        rcases hs with rfl | rfl <;> simp [instIdIs, hg, solIds]
      · have hs : s = "ETH-USD-SWAP" ∨ s = "ETH-USDT-SWAP" := by
          simpa [instIdIs, hg, ethIds] using h
        rcases hs with rfl | rfl <;> simp [instIdIs, hg, solIds]

/-- An iteration that does not raise yields a next state. -/
theorem okxStep_total (item : Json) (h : okxRaises item = false) (fr : FundingRates) :
    (okxStep fr item).isSome = true := by
  rw [okxRaises] at h
  by_cases ho : item.isObj = false
  · rw [if_pos ho] at h
    cases h
  · rw [if_neg ho] at h
    rw [okxStep, if_neg ho]
    by_cases hany : (instIdIs item btcIds || instIdIs item ethIds
        || instIdIs item solIds) = true
    · rw [if_pos hany] at h
      obtain ⟨q, hqq⟩ : ∃ q, (item.getField "fundingRate").bind pyFloat = some q := by
        rcases hqq : (item.getField "fundingRate").bind pyFloat with - | q
        · rw [hqq] at h
          simp at h
        · exact ⟨q, rfl⟩
      by_cases hb : instIdIs item btcIds = true
      · rw [if_pos hb, hqq]
        rfl
      · rw [if_neg hb]
        by_cases he : instIdIs item ethIds = true
        · rw [if_pos he, hqq]
          rfl
        · rw [if_neg he]
          by_cases hs : instIdIs item solIds = true
          · rw [if_pos hs, hqq]
            rfl
          · rw [if_neg hs]
            rfl
    · have hall : (instIdIs item btcIds = false ∧ instIdIs item ethIds = false)
          ∧ instIdIs item solIds = false := by
        simpa [not_or] using hany
      rw [if_neg (by simp [hall.1.1]), if_neg (by simp [hall.1.2]),
        if_neg (by simp [hall.2])]
      rfl

/-- An iteration never changes the rate of an asset the item does not
match. -/
theorem okxStep_keep (fr : FundingRates) (item : Json) (fr2 : FundingRates)
    (h : okxStep fr item = some fr2) :
    (instIdIs item btcIds = false → fr2.BTC = fr.BTC) ∧
    (instIdIs item ethIds = false → fr2.ETH = fr.ETH) ∧
    (instIdIs item solIds = false → fr2.SOL = fr.SOL) := by
  rw [okxStep] at h
  by_cases ho : item.isObj = false
  · rw [if_pos ho] at h
    cases h
  · rw [if_neg ho] at h
    by_cases hb : instIdIs item btcIds = true
    · rw [if_pos hb, Option.map_eq_some'] at h
      obtain ⟨q, hq, hfr⟩ := h
      refine ⟨fun hc => ?_, fun _ => by rw [← hfr], fun _ => by rw [← hfr]⟩
      rw [hb] at hc
      cases hc
    · rw [if_neg hb] at h
      by_cases he : instIdIs item ethIds = true
      · rw [if_pos he, Option.map_eq_some'] at h
        obtain ⟨q, hq, hfr⟩ := h
        refine ⟨fun _ => by rw [← hfr], fun hc => ?_, fun _ => by rw [← hfr]⟩
        rw [he] at hc
        cases hc
      · rw [if_neg he] at h
        by_cases hs : instIdIs item solIds = true
        · rw [if_pos hs, Option.map_eq_some'] at h
          obtain ⟨q, hq, hfr⟩ := h
          refine ⟨fun _ => by rw [← hfr], fun _ => by rw [← hfr], fun hc => ?_⟩
          rw [hs] at hc
          cases hc
        · rw [if_neg hs] at h
          injection h with hfr
          exact ⟨fun _ => by rw [← hfr], fun _ => by rw [← hfr], fun _ => by rw [← hfr]⟩

/-- An iteration over a matching item sets the matched asset's rate to
the formatted converted rate. -/
theorem okxStep_set (fr : FundingRates) (item : Json) (fr2 : FundingRates)
    (h : okxStep fr item = some fr2) :
    (instIdIs item btcIds = true →
        ∃ q, (item.getField "fundingRate").bind pyFloat = some q
          ∧ fr2.BTC = fmtRate q) ∧
    (instIdIs item ethIds = true →
        ∃ q, (item.getField "fundingRate").bind pyFloat = some q
          ∧ fr2.ETH = fmtRate q) ∧
    (instIdIs item solIds = true →
        ∃ q, (item.getField "fundingRate").bind pyFloat = some q
          ∧ fr2.SOL = fmtRate q) := by
  have huniq := instId_not_both item
  rw [okxStep] at h
  by_cases ho : item.isObj = false
  · rw [if_pos ho] at h
    cases h
  · rw [if_neg ho] at h
    by_cases hb : instIdIs item btcIds = true
    · rw [if_pos hb, Option.map_eq_some'] at h
      obtain ⟨q, hq, hfr⟩ := h
      refine ⟨fun _ => ⟨q, hq, by rw [← hfr]⟩, fun he => ?_, fun hs => ?_⟩
      · rw [huniq.1 hb] at he
        cases he
      · rw [huniq.2.1 hb] at hs
        cases hs
    · rw [if_neg hb] at h
      by_cases he : instIdIs item ethIds = true
      · rw [if_pos he, Option.map_eq_some'] at h
        obtain ⟨q, hq, hfr⟩ := h
        refine ⟨fun hbb => absurd hbb hb, fun _ => ⟨q, hq, by rw [← hfr]⟩, fun hs => ?_⟩
        rw [huniq.2.2 he] at hs
        cases hs
      · rw [if_neg he] at h
        by_cases hs : instIdIs item solIds = true
        · rw [if_pos hs, Option.map_eq_some'] at h
          obtain ⟨q, hq, hfr⟩ := h
          exact ⟨fun hbb => absurd hbb hb, fun hee => absurd hee he,
            fun _ => ⟨q, hq, by rw [← hfr]⟩⟩
        · rw [if_neg hs] at h
          exact ⟨fun hbb => absurd hbb hb, fun hee => absurd hee he,
            fun hss => absurd hss hs⟩

/-- Generic last-match-wins lemma for one projection of the loop
state: over items none of which raises, the final value of the
projected field comes from the last selected entry, and is untouched
when no entry is selected. -/
theorem okxLoop_proj (proj : FundingRates → String) (sel : Json → Bool)
    (hkeep : ∀ g it g2, okxStep g it = some g2 → sel it = false → proj g2 = proj g)
    (hset : ∀ g it g2, okxStep g it = some g2 → sel it = true →
        ∃ q, (it.getField "fundingRate").bind pyFloat = some q ∧ proj g2 = fmtRate q)
    (items : List Json) (hok : ∀ it ∈ items, okxRaises it = false) (fr : FundingRates) :
    (lastMatch sel items = none → proj (okxLoop fr items) = proj fr) ∧
    (∀ it q, lastMatch sel items = some it →
        (it.getField "fundingRate").bind pyFloat = some q →
        proj (okxLoop fr items) = fmtRate q) := by
  induction items generalizing fr with
  | nil =>
    refine ⟨fun _ => rfl, fun it q h hq => ?_⟩
    cases h
  | cons x rest ih =>
    have hx := hok x (by simp)
    have hstep := okxStep_total x hx fr
    rcases h2 : okxStep fr x with - | fr2
    · rw [h2] at hstep
      simp at hstep
    · have ihr := ih (fun it h => hok it (by simp [h])) fr2
      have hloop : okxLoop fr (x :: rest) = okxLoop fr2 rest := by
        simp only [okxLoop, h2]
      constructor
      · intro hlm
        simp only [lastMatch] at hlm
        rcases hr : lastMatch sel rest with - | r
        · rw [hr] at hlm
          by_cases hs : sel x = true
          · simp only [if_pos hs] at hlm
            cases hlm
          · rw [hloop, ihr.1 hr]
            exact hkeep fr x fr2 h2 (by simpa using hs)
        · rw [hr] at hlm
          cases hlm
      · intro it q hlm hq
        simp only [lastMatch] at hlm
        rcases hr : lastMatch sel rest with - | r
        · rw [hr] at hlm
          by_cases hs : sel x = true
          · simp only [if_pos hs] at hlm
            injection hlm with hit
            subst hit
            rw [hloop, ihr.1 hr]
            obtain ⟨q2, hq2, hp⟩ := hset fr x fr2 h2 hs
            rw [hq] at hq2
            injection hq2 with hqq
            rw [hp, hqq]
          · simp only [if_neg hs] at hlm
            cases hlm
        · rw [hr] at hlm
          injection hlm with hit
          subst hit
          rw [hloop]
          exact ihr.2 r q hr hq

/-- C10: the tier-2 scan traverses the response list in order and each
matching entry overwrites any earlier assignment, so over a list none
of whose entries raises, each asset's resulting rate comes from the
last entry whose instrument id matches one of its variants (and is
untouched when no entry matches). -/
theorem C10_theorem (items : List Json) (fr : FundingRates)
    (hok : ∀ it ∈ items, okxRaises it = false) :
    ((lastMatch (fun it => instIdIs it btcIds) items = none →
        (okxLoop fr items).BTC = fr.BTC) ∧
     (∀ it q, lastMatch (fun it => instIdIs it btcIds) items = some it →
        (it.getField "fundingRate").bind pyFloat = some q →
        (okxLoop fr items).BTC = fmtRate q)) ∧
    ((lastMatch (fun it => instIdIs it ethIds) items = none →
        (okxLoop fr items).ETH = fr.ETH) ∧
     (∀ it q, lastMatch (fun it => instIdIs it ethIds) items = some it →
        (it.getField "fundingRate").bind pyFloat = some q →
        (okxLoop fr items).ETH = fmtRate q)) ∧
    ((lastMatch (fun it => instIdIs it solIds) items = none →
        (okxLoop fr items).SOL = fr.SOL) ∧
     (∀ it q, lastMatch (fun it => instIdIs it solIds) items = some it →
        (it.getField "fundingRate").bind pyFloat = some q →
        (okxLoop fr items).SOL = fmtRate q)) := by
  refine ⟨?_, ?_, ?_⟩
  · exact okxLoop_proj FundingRates.BTC _
      (fun g it g2 h hsel => (okxStep_keep g it g2 h).1 hsel)
      (fun g it g2 h hsel => (okxStep_set g it g2 h).1 hsel) items hok fr
  · exact okxLoop_proj FundingRates.ETH _
      (fun g it g2 h hsel => (okxStep_keep g it g2 h).2.1 hsel)
      (fun g it g2 h hsel => (okxStep_set g it g2 h).2.1 hsel) items hok fr
  · exact okxLoop_proj FundingRates.SOL _
      (fun g it g2 h hsel => (okxStep_keep g it g2 h).2.2 hsel)
      (fun g it g2 h hsel => (okxStep_set g it g2 h).2.2 hsel) items hok fr

/-- C10 witness: with both BTC variants present, the later entry in
list order wins. -/
theorem C10_witness :
    (okxLoop ⟨"N/A", "N/A", "N/A"⟩
        [Json.obj [("instId", Json.str "BTC-USD-SWAP"),
                   ("fundingRate", Json.num (1 / 10000))],
         Json.obj [("instId", Json.str "BTC-USDT-SWAP"),
                   ("fundingRate", Json.num (2 / 10000))]]).BTC
      = fmtRate (2 / 10000) :=
  (C10_theorem
    [Json.obj [("instId", Json.str "BTC-USD-SWAP"),
               ("fundingRate", Json.num (1 / 10000))],
     Json.obj [("instId", Json.str "BTC-USDT-SWAP"),
               ("fundingRate", Json.num (2 / 10000))]]
    ⟨"N/A", "N/A", "N/A"⟩ (by decide)).1.2 _ _ rfl rfl

/-- C7: every funding-rate string the fetcher stores for a numeric rate
fraction — the fraction times 100, printed to exactly four decimal
places with a trailing percent sign — matches the anchored pattern
of an optional minus sign, one or more digits, a point, exactly four
digits and a percent sign. -/
theorem C7_theorem (q : ℚ) : matchesRatePattern (fmtRate q) = true :=
  fmtRate_matches q

end CryptoLogger
